import Mathlib

/-!
# Shallow embedding of the `Result` library (result.hpp)

The library defines, in one header:

* `enum class Content { Empty, Value, Error }`;
* `template <typename ErrorEnum> class Error` holding `std::string m_message`
  and `ErrorEnum m_code`;
* `template <typename T, typename ErrorEnum> class Result
    : public std::variant<T, Error<ErrorEnum>>`
  with accessors `get`, `error`, `type` and combinators `match`, `onSuccess`,
  `recover`, plus a free function `match` delegating to the member.

The embedding models the underlying `std::variant<T, Error<ErrorEnum>>` as a
three-constructor inductive: alternative 0 (`T`), alternative 1
(`Error<ErrorEnum>`), and the `valueless_by_exception` state
(`index() == std::variant_npos`), which is the only state `type()` reports as
`Content::Empty`.

C++ initialization facts that the model must reflect faithfully:

* `std::variant`'s default constructor VALUE-initializes alternative 0, so a
  default-constructed `Result` holds a value-initialized `T` (index 0); it is
  never valueless.  Value-initialization is deterministic (`T()` is the zero
  value for scalars, the default constructor for class types) and is modelled
  by `Inhabited.default`.
* `Error() = default` DEFAULT-initializes the members: `m_message` runs
  `std::string`'s default constructor (empty string), while `m_code`, a scalar
  enumeration with no member initializer, is left uninitialized and holds an
  indeterminate value.  The indeterminate contents are modelled by an explicit
  `residue` argument.
* The local `T val;` inside `recover` is likewise DEFAULT-initialized; it is
  modelled by an explicit argument `val0` standing for whatever that
  default-initialized (default-constructed) `T` is.
-/

set_option autoImplicit false

/-- `enum class Content { Empty, Value, Error }`. -/
inductive Content where
  | Empty : Content
  | Value : Content
  | Error : Content
deriving DecidableEq

/-- `class Error<ErrorEnum>` with fields
`std::string m_message; ErrorEnum m_code;`. -/
structure Error (ε : Type) where
  m_message : String
  m_code : ε
deriving DecidableEq

/-- `std::string message() const { return m_message; }`. -/
def Error.message {ε : Type} (e : Error ε) : String :=
  e.m_message

/-- `ErrorEnum code() const { return m_code; }`. -/
def Error.code {ε : Type} (e : Error ε) : ε :=
  e.m_code

/-- `Error(const std::string message, const ErrorEnum code)`:
stores both arguments. -/
def Error.ofMessageCode {ε : Type} (message : String) (code : ε) : Error ε :=
  { m_message := message, m_code := code }

/-- `Error(const ErrorEnum code) : Error("", code)`. -/
def Error.ofCode {ε : Type} (code : ε) : Error ε :=
  Error.ofMessageCode "" code

/-- `Error(const std::string message) : Error(message, ErrorEnum())`.
`ErrorEnum()` value-initializes the enumeration, yielding its zero value;
that zero value is modelled by `(default : ε)`. -/
def Error.ofMessage {ε : Type} [Inhabited ε] (message : String) : Error ε :=
  Error.ofMessageCode message default

/-- `Error() = default`: the compiler-generated constructor
default-initializes the members.  `m_message` becomes the empty string
(`std::string`'s default constructor); `m_code` has no initializer, so as a
scalar it is left uninitialized and holds an indeterminate value, modelled by
the explicit `residue` argument. -/
def Error.defaultCtor {ε : Type} (residue : ε) : Error ε :=
  { m_message := "", m_code := residue }

/-- `class Result<T, ErrorEnum> : public std::variant<T, Error<ErrorEnum>>`.
`val` is alternative 0 (`T`), `err` is alternative 1 (`Error<ErrorEnum>`),
and `valueless` is the `valueless_by_exception` state
(`index() == std::variant_npos`). -/
inductive Result (T : Type) (ε : Type) where
  | val : T → Result T ε
  | err : Error ε → Result T ε
  | valueless : Result T ε
deriving DecidableEq

/-- `Result() = default`: `std::variant`'s default constructor
value-initializes alternative 0, so the object holds a value-initialized `T`
(`index() == 0`).  Value-initialization of `T` is modelled by
`(default : T)`. -/
def Result.defaultCtor (T ε : Type) [Inhabited T] : Result T ε :=
  Result.val default

/-- `Result(const T value) : std::variant<T, Error<ErrorEnum>>(value)`:
holds alternative 0. -/
def Result.ofValue {T ε : Type} (value : T) : Result T ε :=
  Result.val value

/-- `Result(const Error<ErrorEnum> error) : std::variant<...>(error)`:
holds alternative 1. -/
def Result.ofError {T ε : Type} (e : Error ε) : Result T ε :=
  Result.err e

/-- `Content type() const`: switches on `index()`; `0 ↦ Value`, `1 ↦ Error`,
`std::variant_npos` and the `default:` label `↦ Empty`. -/
def Result.type {T ε : Type} : Result T ε → Content
  | Result.val _ => Content.Value
  | Result.err _ => Content.Error
  | Result.valueless => Content.Empty

/-- The exception type thrown by `std::get` on a wrong-alternative access. -/
inductive VariantAccess where
  | bad_variant_access : VariantAccess
deriving DecidableEq

/-- `T get() const { return std::get<T>(*this); }`: yields the held `T`
when `index() == 0`, otherwise throws `std::bad_variant_access`
(modelled by `Except.error`). -/
def Result.get {T ε : Type} : Result T ε → Except VariantAccess T
  | Result.val v => Except.ok v
  | Result.err _ => Except.error VariantAccess.bad_variant_access
  | Result.valueless => Except.error VariantAccess.bad_variant_access

/-- `Error<ErrorEnum> error() const { return std::get<Error<ErrorEnum>>(*this); }`:
yields the held `Error` when `index() == 1`, otherwise throws
`std::bad_variant_access`. -/
def Result.error {T ε : Type} : Result T ε → Except VariantAccess (Error ε)
  | Result.val _ => Except.error VariantAccess.bad_variant_access
  | Result.err e => Except.ok e
  | Result.valueless => Except.error VariantAccess.bad_variant_access

/-- Member `match(apply_value, apply_error)`: switches on `type()`;
on `Value` it calls `apply_value(get())` (and `get()` succeeds there, the
variant holds a `T`), on `Error` it calls `apply_error(error())`, on `Empty`
it does nothing.  The C++ callbacks return `void` and act by side effect;
they are purified as transformers of an ambient state `σ`, which `match`
threads through the one call it performs. -/
def Result.mmatch {T ε σ : Type} (r : Result T ε)
    (apply_value : T → σ → σ) (apply_error : Error ε → σ → σ) (s : σ) : σ :=
  match r with
  | Result.val v => apply_value v s
  | Result.err e => apply_error e s
  | Result.valueless => s

/-- `Result<U, ErrorEnum> onSuccess(apply_value)`:
declares a local `Result<U, ErrorEnum> result;` — default-constructed, hence
(per `std::variant`) holding a value-initialized `U` — then runs
`match([&]{ result = apply_value(value); }, [&]{ result = error; })` and
returns `result`.  Assigning an `Error<ErrorEnum>` to a `Result` switches the
variant to alternative 1. -/
def Result.onSuccess {T ε U : Type} [Inhabited U] (r : Result T ε)
    (apply_value : T → Result U ε) : Result U ε :=
  Result.mmatch r
    (fun value _result => apply_value value)
    (fun e _result => Result.err e)
    (Result.defaultCtor U ε)

/-- `T recover(apply_error)`:
declares a local `T val;` — default-initialized, modelled by the explicit
argument `val0` — then runs
`match([&]{ val = value; }, [&]{ val = apply_error(error); })` and returns
`val`. -/
def Result.recover {T ε : Type} (r : Result T ε)
    (apply_error : Error ε → T) (val0 : T) : T :=
  Result.mmatch r
    (fun value _val => value)
    (fun e _val => apply_error e)
    val0

/-- Free function `match(result, apply_value, apply_error)` in namespace
`Result`: `return result.match(apply_value, apply_error);`. -/
def matchFree {T ε σ : Type} (result : Result T ε)
    (apply_value : T → σ → σ) (apply_error : Error ε → σ → σ) (s : σ) : σ :=
  Result.mmatch result apply_value apply_error s

/-!
## Claim theorems
-/

/-- C1: the claim states `Result<T, ErrorEnum>().type() == Content::Empty`
for every `T`, `ErrorEnum`.  The code disagrees: `std::variant`'s default
constructor value-initializes the first alternative `T`, so a
default-constructed `Result` has `index() == 0` and `type()` reports
`Content::Value`, never `Content::Empty`.  Evaluated here at
`Result<int, int>` (a default-constructible `T`). -/
theorem default_result_type_is_value :
    (Result.defaultCtor Nat Nat).type = Content.Value ∧
    ¬ (Result.defaultCtor Nat Nat).type = Content.Empty := by
  exact ⟨rfl, by decide⟩

/-- C2: `onSuccess` on a Value-state `Result` returns exactly what the
transformer returns on the stored value; on an Error-state `Result` it
returns an Error-state `Result<U, ErrorEnum>` holding the very same
`Error` value (hence identical code and message), and the result does not
depend on the transformer (it is never invoked): the same output arises for
any two transformers `apply` and `g`. -/
theorem onSuccess_value_error_spec (T U ε : Type) [Inhabited U]
    (apply g : T → Result U ε) :
    (∀ v : T, (Result.ofValue v : Result T ε).onSuccess apply = apply v) ∧
    (∀ e : Error ε,
      ((Result.ofError e : Result T ε).onSuccess apply).type = Content.Error) ∧
    (∀ e : Error ε,
      ((Result.ofError e : Result T ε).onSuccess apply).error = Except.ok e) ∧
    (∀ e : Error ε,
      (((Result.ofError e : Result T ε).onSuccess apply).error).map Error.code
        = Except.ok e.code) ∧
    (∀ e : Error ε,
      (((Result.ofError e : Result T ε).onSuccess apply).error).map Error.message
        = Except.ok e.message) ∧
    (∀ e : Error ε,
      (Result.ofError e : Result T ε).onSuccess apply
        = (Result.ofError e : Result T ε).onSuccess g) :=
  ⟨fun _ => rfl, fun _ => rfl, fun _ => rfl, fun _ => rfl, fun _ => rfl,
   fun _ => rfl⟩

/-- C3: the claim states that `onSuccess` on an Empty-state `Result` yields
an Empty `Result<U, ErrorEnum>`.  The code disagrees: the local
`Result<U, ErrorEnum> result;` is default-constructed, so it holds a
value-initialized `U` (Value state); `match` is a no-op on Empty, so that
Value-state local is returned unchanged.  The transformer is indeed never
invoked: the output is `Result.val 0` for every `apply`.  Evaluated at
`Result<int, int>`, where `valueless` is the only Empty-state value. -/
theorem onSuccess_empty_gives_value_state :
    ∀ apply : Nat → Result Nat Nat,
      (Result.valueless : Result Nat Nat).onSuccess apply = Result.val 0 ∧
      ((Result.valueless : Result Nat Nat).onSuccess apply).type
        = Content.Value ∧
      ¬ ((Result.valueless : Result Nat Nat).onSuccess apply).type
        = Content.Empty := by
  intro apply
  exact ⟨rfl, rfl, fun h => nomatch h⟩

/-- C4: `recover` on a Value-state `Result` returns the stored value; on an
Error-state `Result` it returns exactly `apply_error` applied to the stored
error; on the Empty state it returns the default-initialized local `T val;`
(the default-constructed `T`, modelled by `val0`).  The fallback is never
invoked in the Value and Empty cases: the output there coincides for any two
fallbacks `apply_error` and `g`. -/
theorem recover_spec (T ε : Type) (val0 : T) (apply_error g : Error ε → T) :
    (∀ v : T, (Result.ofValue v : Result T ε).recover apply_error val0 = v) ∧
    (∀ e : Error ε,
      (Result.ofError e : Result T ε).recover apply_error val0
        = apply_error e) ∧
    ((Result.valueless : Result T ε).recover apply_error val0 = val0) ∧
    (∀ v : T,
      (Result.ofValue v : Result T ε).recover apply_error val0
        = (Result.ofValue v : Result T ε).recover g val0) ∧
    ((Result.valueless : Result T ε).recover apply_error val0
        = (Result.valueless : Result T ε).recover g val0) :=
  ⟨fun _ => rfl, fun _ => rfl, rfl, fun _ => rfl, rfl⟩

/-- C5: member `match` on a Value-state `Result` performs exactly the single
call `apply_value(stored value)`; on an Error-state `Result` exactly the
single call `apply_error(stored error)`; on the Empty state it performs no
call and returns the ambient state unchanged.  The first three conjuncts
state this for arbitrary state-transformer callbacks; the last three
instantiate the callbacks with side-effect counters (a pair counting calls
to each branch), confirming counts `(1,0)`, `(0,1)` and `(0,0)`. -/
theorem match_member_spec (T ε σ : Type)
    (apply_value : T → σ → σ) (apply_error : Error ε → σ → σ) (s : σ) :
    (∀ v : T,
      Result.mmatch (Result.ofValue v : Result T ε) apply_value apply_error s
        = apply_value v s) ∧
    (∀ e : Error ε,
      Result.mmatch (Result.ofError e : Result T ε) apply_value apply_error s
        = apply_error e s) ∧
    (Result.mmatch (Result.valueless : Result T ε) apply_value apply_error s
        = s) ∧
    (∀ v : T,
      Result.mmatch (Result.ofValue v : Result T ε)
        (fun _ p => (p.1 + 1, p.2)) (fun _ p => (p.1, p.2 + 1))
        ((0, 0) : Nat × Nat) = (1, 0)) ∧
    (∀ e : Error ε,
      Result.mmatch (Result.ofError e : Result T ε)
        (fun _ p => (p.1 + 1, p.2)) (fun _ p => (p.1, p.2 + 1))
        ((0, 0) : Nat × Nat) = (0, 1)) ∧
    (Result.mmatch (Result.valueless : Result T ε)
        (fun _ p => (p.1 + 1, p.2)) (fun _ p => (p.1, p.2 + 1))
        ((0, 0) : Nat × Nat) = (0, 0)) :=
  ⟨fun _ => rfl, fun _ => rfl, rfl, fun _ => rfl, fun _ => rfl, rfl⟩

/-- C6: `get()` succeeds exactly on the Value state, returning the owned
value, and otherwise fails with the distinguished `std::bad_variant_access`
(not a default value); `error()` succeeds exactly on the Error state,
returning the owned error, and otherwise fails the same way. -/
theorem get_error_contract (T ε : Type) :
    (∀ v : T, (Result.val v : Result T ε).get = Except.ok v) ∧
    (∀ e : Error ε,
      (Result.err e : Result T ε).get
        = Except.error VariantAccess.bad_variant_access) ∧
    ((Result.valueless : Result T ε).get
        = Except.error VariantAccess.bad_variant_access) ∧
    (∀ e : Error ε, (Result.err e : Result T ε).error = Except.ok e) ∧
    (∀ v : T,
      (Result.val v : Result T ε).error
        = Except.error VariantAccess.bad_variant_access) ∧
    ((Result.valueless : Result T ε).error
        = Except.error VariantAccess.bad_variant_access) ∧
    (∀ r : Result T ε,
      (∃ v, r.get = Except.ok v) ↔ r.type = Content.Value) ∧
    (∀ r : Result T ε,
      (∃ e, r.error = Except.ok e) ↔ r.type = Content.Error) := by
  refine ⟨fun _ => rfl, fun _ => rfl, rfl, fun _ => rfl, fun _ => rfl, rfl,
    ?_, ?_⟩
  · intro r
    cases r with
    | val v => exact ⟨fun _ => rfl, fun _ => ⟨v, rfl⟩⟩
    | err e =>
        exact ⟨fun h => (nomatch h.choose_spec), fun h => (nomatch h)⟩
    | valueless =>
        exact ⟨fun h => (nomatch h.choose_spec), fun h => (nomatch h)⟩
  · intro r
    cases r with
    | val v =>
        exact ⟨fun h => (nomatch h.choose_spec), fun h => (nomatch h)⟩
    | err e => exact ⟨fun _ => rfl, fun _ => ⟨e, rfl⟩⟩
    | valueless =>
        exact ⟨fun h => (nomatch h.choose_spec), fun h => (nomatch h)⟩

/-- C7: `Result(t)` is in Value state and `get()` returns exactly `t`;
`Result(e)` is in Error state and `error()` returns an error whose code and
message equal those of `e`. -/
theorem ctor_roundtrip (T ε : Type) :
    (∀ t : T, (Result.ofValue t : Result T ε).type = Content.Value) ∧
    (∀ t : T, (Result.ofValue t : Result T ε).get = Except.ok t) ∧
    (∀ e : Error ε, (Result.ofError e : Result T ε).type = Content.Error) ∧
    (∀ e : Error ε,
      ((Result.ofError e : Result T ε).error).map Error.code
        = Except.ok e.code) ∧
    (∀ e : Error ε,
      ((Result.ofError e : Result T ε).error).map Error.message
        = Except.ok e.message) :=
  ⟨fun _ => rfl, fun _ => rfl, fun _ => rfl, fun _ => rfl, fun _ => rfl⟩

/-- C8: `Error(code)` has an empty message and stores `code`;
`Error(message)` stores `message` and defaults the code to the
enumeration's zero value (the value-initialized `ErrorEnum()`, modelled by
`default`); `Error(message, code)` preserves both exactly. -/
theorem error_ctor_defaults (ε : Type) [Inhabited ε] :
    (∀ c : ε, (Error.ofCode c).message = "" ∧ (Error.ofCode c).code = c) ∧
    (∀ m : String,
      (Error.ofMessage m : Error ε).message = m ∧
      (Error.ofMessage m : Error ε).code = (default : ε)) ∧
    (∀ (m : String) (c : ε),
      (Error.ofMessageCode m c).message = m ∧
      (Error.ofMessageCode m c).code = c) :=
  ⟨fun _ => ⟨rfl, rfl⟩, fun _ => ⟨rfl, rfl⟩, fun _ _ => ⟨rfl, rfl⟩⟩

/-- C9: the claim states that a default-constructed `Error<ErrorEnum>` has
`code()` equal to the enumeration's zero member.  The code disagrees:
`Error() = default` default-initializes `m_code`, which has no member
initializer, so the scalar is left uninitialized and `code()` returns
whatever indeterminate value the storage held; only `message() == ""`
holds.  Evaluated at residue `7` over `ErrorEnum = int` (zero value `0`):
the code comes out as the residue, not the zero member. -/
theorem default_error_code_is_residue :
    (Error.defaultCtor 7 : Error Nat).message = "" ∧
    (Error.defaultCtor 7 : Error Nat).code = 7 ∧
    ¬ (Error.defaultCtor 7 : Error Nat).code = (default : Nat) := by
  exact ⟨rfl, rfl, by decide⟩

/-- C10: the free function `match(result, apply_value, apply_error)`
delegates to the member `match` and agrees with it on every `Result` and
every pair of callbacks; in particular it dispatches the same single branch
with the same argument in the Value and Error states and is a no-op in the
Empty state. -/
theorem free_match_eq_member (T ε σ : Type)
    (apply_value : T → σ → σ) (apply_error : Error ε → σ → σ) (s : σ) :
    (∀ r : Result T ε,
      matchFree r apply_value apply_error s
        = Result.mmatch r apply_value apply_error s) ∧
    (∀ v : T,
      matchFree (Result.ofValue v : Result T ε) apply_value apply_error s
        = apply_value v s) ∧
    (∀ e : Error ε,
      matchFree (Result.ofError e : Result T ε) apply_value apply_error s
        = apply_error e s) ∧
    (matchFree (Result.valueless : Result T ε) apply_value apply_error s
        = s) :=
  ⟨fun _ => rfl, fun _ => rfl, fun _ => rfl, rfl⟩
